import Mathlib

/-!
Verification development for the `vrchatapi_extensions` authentication helper.

The development shallowly embeds the Credential Vault (`utils/crypto.py`,
class `CookieVault`), the cookie-header extraction logic, and the
authentication orchestrator (`api/authentication/login.py`) together with its
constants (`constant/constant.py`).  External collaborators are modelled at
their contract level:

* the Fernet authenticated cipher (third-party `cryptography` package) is an
  idealized authenticated symmetric cipher: encryption is injective, a
  ciphertext decrypts only under the key that produced it, and every other
  ciphertext (including the empty byte string) fails with `InvalidToken`;
* `json.dumps`/`json.loads` are an injective byte encoding of the values this
  code base actually serializes (`None`, or a dict mapping strings to strings
  or `None`) together with its inverse;
* the stdlib `http.cookies.SimpleCookie` string parser is modelled for
  well-formed cookie header lines: `name=value` pairs separated by `;`,
  reserved cookie attributes (`Path`, `Domain`, ...) attached to morsels and
  hence not visible as cookie names, later bindings overwriting earlier ones.
  Loading a non-string (the Python code passes the raw list to the
  `SimpleCookie` constructor) raises `AttributeError`, as in CPython.
-/

/-- Byte strings are modelled as lists of natural numbers. -/
abbrev Bytes := List Nat

/-- A Python dict of the shape this code serializes: string keys mapped to a
string or to `None`. -/
abbrev Bag := List (String × Option String)

/-- Length-prefixed byte encoding of one string. -/
def encStr (s : String) : Bytes :=
  s.data.length :: s.data.map Char.toNat

/-- Decodes one length-prefixed string, returning it and the remaining bytes. -/
def decStr : Bytes → Option (String × Bytes)
  | [] => none
  | n :: rest =>
    if n ≤ rest.length then
      some (String.mk ((rest.take n).map Char.ofNat), rest.drop n)
    else
      none

/-- Byte encoding of an optional string (tag `0` for `None`, tag `1` otherwise). -/
def encOptStr : Option String → Bytes
  | none => [0]
  | some s => 1 :: encStr s

/-- Decodes one optional string. -/
def decOptStr : Bytes → Option (Option String × Bytes)
  | 0 :: rest => some (none, rest)
  | 1 :: rest =>
    match decStr rest with
    | some (s, rest') => some (some s, rest')
    | none => none
  | _ => none

/-- Byte encoding of dict entries, in insertion order. -/
def encEntries : Bag → Bytes
  | [] => []
  | e :: es => encStr e.1 ++ (encOptStr e.2 ++ encEntries es)

/-- Decodes exactly `n` dict entries. -/
def decEntries : Nat → Bytes → Option (Bag × Bytes)
  | 0, bs => some ([], bs)
  | n + 1, bs =>
    match decStr bs with
    | none => none
    | some (k, bs1) =>
      match decOptStr bs1 with
      | none => none
      | some (v, bs2) =>
        match decEntries n bs2 with
        | none => none
        | some (es, bs3) => some ((k, v) :: es, bs3)

/-- A JSON value this code base passes to `json.dumps`: `null` (Python `None`)
or an object with string/`null` fields. -/
inductive BagVal
  | null
  | bag (entries : Bag)
deriving DecidableEq

/-- Model of `json.dumps(...).encode("utf-8")` on the values the vault stores. -/
def dumps : BagVal → Bytes
  | .null => [0]
  | .bag es => 1 :: es.length :: encEntries es

/-- Model of `json.loads` on the byte strings produced by `dumps`; any other
byte string fails to deserialize. -/
def loads : Bytes → Option BagVal
  | [0] => some .null
  | 1 :: n :: rest =>
    match decEntries n rest with
    | some (es, []) => some (.bag es)
    | _ => none
  | _ => none

/-- Python exception values that the vault and the orchestrator can raise.

* `vaultEmpty` embeds the `RuntimeError("cookie vault is empty...")` raised by
  `CookieVault._decrypt` when the in-memory ciphertext is `None` or empty;
* `invalidToken` embeds `cryptography.fernet.InvalidToken`;
* `jsonDecodeError` embeds `json.JSONDecodeError`;
* `attributeError` embeds Python's `AttributeError` (raised when
  `SimpleCookie` is constructed from a list, or `dict.get` is called on
  `None`). -/
inductive VErr
  | vaultEmpty
  | invalidToken
  | jsonDecodeError
  | attributeError
deriving DecidableEq

/-- Contract-level model of `Fernet(key).encrypt`: an idealized authenticated
symmetric cipher.  The ciphertext is the key followed by the plaintext, so
encryption is injective in `(key, plaintext)` and never produces the empty
byte string. -/
def fernetEncrypt (key : Nat) (plain : Bytes) : Bytes :=
  key :: plain

/-- Contract-level model of `Fernet(key).decrypt`: a ciphertext decrypts only
under the key that produced it; every other byte string (in particular the
empty one) raises `InvalidToken`. -/
def fernetDecrypt (key : Nat) : Bytes → Except VErr Bytes
  | [] => .error .invalidToken
  | h :: t => if h = key then .ok t else .error .invalidToken

namespace CookieVault

/-- Embeds the mutable state of a `CookieVault` instance (`utils/crypto.py`).
The `service_name`/`account_name`/`store_path` fields are identity data; the
keyring lookup of `_get_key` is modelled by the fixed `key` field (the claims
all hold the vault key fixed), and `_ciphertext` by `ciphertext`. -/
structure State where
  key : Nat
  ciphertext : Option Bytes
deriving DecidableEq

/-- Embeds the `is_active` property: `self._ciphertext is not None`. -/
def is_active (st : State) : Bool :=
  st.ciphertext.isSome

/-- Embeds `CookieVault.load`.  `file` is the content of `store_path`
(`none` when the file does not exist): the method stores the raw bytes when
the file exists and `None` otherwise, and never raises for a missing file. -/
def load (file : Option Bytes) (st : State) : State :=
  { st with ciphertext := file }

/-- Embeds `CookieVault.save`: serialize, encrypt under the vault key, write
the token to the store path and keep it in memory.  Returns the new state and
the new file content.  (The best-effort `os.chmod` hardening is a no-op at
this level of abstraction.) -/
def save (st : State) (cookies : BagVal) : State × Bytes :=
  let token := fernetEncrypt st.key (dumps cookies)
  ({ st with ciphertext := some token }, token)

/-- Embeds `CookieVault._decrypt`.  Python's `if not self._ciphertext` is true
both for `None` and for the empty byte string, and raises the vault-empty
`RuntimeError`; otherwise the Fernet decryption and the JSON deserialization
run, each failure propagating. -/
def decryptBag (st : State) : Except VErr BagVal :=
  match st.ciphertext with
  | none => .error .vaultEmpty
  | some [] => .error .vaultEmpty
  | some (b :: bs) =>
    match fernetDecrypt st.key (b :: bs) with
    | .error e => .error e
    | .ok plain =>
      match loads plain with
      | some v => .ok v
      | none => .error .jsonDecodeError

/-- Embeds `CookieVault.get`: decrypt, then `data.get(key)`, returning the
value only when it is a string.  Calling `.get` on a decrypted `None` raises
`AttributeError`, as in Python. -/
def get (st : State) (key : String) : Except VErr (Option String) :=
  match decryptBag st with
  | .error e => .error e
  | .ok .null => .error .attributeError
  | .ok (.bag es) =>
    .ok (match es.lookup key with
         | some (some s) => some s
         | some none => none
         | none => none)

/-- Embeds the `Cookie` header value composed by `CookieVault.set_configuration`
(the spec's `buildAuthHeader`): starts from the empty string, sets
`auth=<auth>` when `get("auth")` is a string, then appends
`; twoFactorAuth=<value>` when `get("twoFactorAuth")` is a string. -/
def buildAuthHeader (st : State) : Except VErr String :=
  match get st "auth" with
  | .error e => .error e
  | .ok auth =>
    let header := match auth with
      | some a => "auth=" ++ a
      | none => ""
    match get st "twoFactorAuth" with
    | .error e => .error e
    | .ok twofa =>
      .ok (match twofa with
           | some f => header ++ "; twoFactorAuth=" ++ f
           | none => header)

end CookieVault

/-- Splits a character list at `;` boundaries (model of the separator handling
in `http.cookies`). -/
def splitSemis (cs : List Char) : List (List Char) :=
  cs.foldr
    (fun c acc =>
      if c = ';' then [] :: acc
      else
        match acc with
        | [] => [[c]]
        | a :: rest => (c :: a) :: rest)
    [[]]

/-- Removes leading and trailing spaces from a character list. -/
def trimChars (cs : List Char) : List Char :=
  ((cs.dropWhile (fun c => c = ' ')).reverse.dropWhile (fun c => c = ' ')).reverse

/-- Splits a character list at the first `=`; `none` when no `=` occurs. -/
def splitEq : List Char → Option (List Char × List Char)
  | [] => none
  | c :: rest =>
    if c = '=' then some ([], rest)
    else
      match splitEq rest with
      | some (k, v) => some (c :: k, v)
      | none => none

/-- Cookie attribute names reserved by `http.cookies.Morsel`: a `name=value`
pair whose lowercased name is reserved is an attribute of the preceding
morsel, not a cookie of its own. -/
def reservedAttrs : List (List Char) :=
  ["expires".data, "path".data, "comment".data, "domain".data,
   "max-age".data, "secure".data, "version".data, "httponly".data,
   "samesite".data]

/-- Inserts a binding into a jar with dict semantics: a later binding for an
existing name overwrites it in place, a new name is appended. -/
def upsert (jar : List (String × String)) (k v : String) : List (String × String) :=
  if (jar.lookup k).isSome then
    jar.map (fun e => if e.1 = k then (e.1, v) else e)
  else
    jar ++ [(k, v)]

/-- Model of `SimpleCookie` applied to one well-formed cookie-header string:
`name=value` pairs separated by `;`, reserved attributes skipped, later
bindings overwriting earlier ones.  Returns the jar as an association list of
morsel names to values. -/
def parseCookies (s : String) : List (String × String) :=
  (splitSemis s.data).foldl
    (fun jar part =>
      match splitEq (trimChars part) with
      | none => jar
      | some (k, v) =>
        let k := trimChars k
        if k = [] then jar
        else if reservedAttrs.contains (k.map Char.toLower) then jar
        else upsert jar (String.mk k) (String.mk v))
    []

/-- The value of one response-header entry: a single string or a list of
strings (one entry per repeated `Set-Cookie` line). -/
inductive HVal
  | vstr (s : String)
  | vlist (l : List String)
deriving DecidableEq

/-- Response headers: `None`, or a mapping from header names to values. -/
abbrev Headers := Option (List (String × HVal))

/-- Python truthiness of an optional header value (`None`, the empty string
and the empty list are falsy). -/
def truthy : Option HVal → Bool
  | none => false
  | some (.vstr s) => !(s = "")
  | some (.vlist l) => !(l = [])

/-- Python `a or b` on optional header values. -/
def pyOr (a b : Option HVal) : Option HVal :=
  if truthy a then a else b

namespace CookieVault

/-- Embeds `CookieVault.extract`.  The `Set-Cookie` entry is looked up under
both spellings with Python `or`; a falsy entry yields `None`.  A list value
reaches `SimpleCookie(set_cookie)`, which raises `AttributeError` in CPython
(`list` has no `.items()`) before the `isinstance(set_cookie, list)` merge
loop below it can run.  A string value is parsed (the subsequent
`jar.load(str(set_cookie))` re-parses the same string into the same jar);
a missing or falsy `auth` morsel yields `None`, otherwise the dict
`{"auth": auth, "twoFactorAuth": twofa}` is returned, where `twofa` may be
`None`. -/
def extract (header : Headers) : Except VErr (Option Bag) :=
  match header with
  | none => .ok none
  | some hs =>
    match pyOr (hs.lookup "Set-Cookie") (hs.lookup "set-cookie") with
    | none => .ok none
    | some (.vstr s) =>
      if s = "" then .ok none
      else
        let jar := parseCookies s
        let auth := jar.lookup "auth"
        let twofa := jar.lookup "twoFactorAuth"
        match auth with
        | none => .ok none
        | some a =>
          if a = "" then .ok none
          else .ok (some [("auth", some a), ("twoFactorAuth", twofa)])
    | some (.vlist l) =>
      if l = [] then .ok none
      else .error .attributeError

end CookieVault

deriving instance DecidableEq for Except

/-- The result of one provider call to `get_current_user` /
`get_current_user_with_http_info`: the identity (modelled as a number) with
the response headers, or an `UnauthorizedException` carrying a reason string
and the headers of the rejection response. -/
inductive FetchResult
  | success (uid : Nat) (headers : Headers)
  | unauthorized (reason : String) (headers : Headers)
deriving DecidableEq

/-- Observable events of one `login` run, in chronological order: interactive
prompts, second-factor verification calls, provider fetches (numbered by call
index), `vault.save` invocations (with the serialized bag, `.null` embedding
Python `None`), and inter-attempt sleeps. -/
inductive Ev
  | promptUsername
  | promptPassword
  | promptEmailCode
  | promptTotpCode
  | verifyEmail (code : String)
  | verifyTotp (code : String)
  | fetchCall (i : Nat)
  | saveCall (bag : BagVal)
  | sleep (secs : Nat)
deriving DecidableEq

/-- The environment of one `login` invocation: the provider's response to the
`i`-th identity fetch, the strings standard input would supply to the three
prompts, the initial content of the vault file, and the vault key held by the
keyring. -/
structure Env where
  fetch : Nat → FetchResult
  stdinUser : String
  stdinPass : String
  stdinCode : String
  file : Option Bytes
  key : Nat

/-- The running state threaded through the orchestrator: the vault instance,
the on-disk vault file, the number of provider fetches issued so far, and the
event log. -/
structure St where
  vault : CookieVault.State
  file : Option Bytes
  calls : Nat
  evs : List Ev
deriving DecidableEq

/-- Errors a `login` run can surface: a propagated `UnauthorizedException`, or
any other Python exception (vault errors, `AttributeError`). -/
inductive LErr
  | unauthorized (reason : String) (headers : Headers)
  | pyErr (e : VErr)
deriving DecidableEq

/-- Appends one event to the log. -/
def pushEv (st : St) (e : Ev) : St :=
  { st with evs := st.evs ++ [e] }

/-- Issues one provider fetch: returns the provider's response for the current
call index and advances the state. -/
def doFetch (env : Env) (st : St) : FetchResult × St :=
  (env.fetch st.calls,
   { st with calls := st.calls + 1, evs := st.evs ++ [.fetchCall st.calls] })

/-- Runs `vault.save(bag)` inside the orchestrator: updates the vault state
and the on-disk file and logs the call. -/
def doSave (st : St) (bag : BagVal) : St :=
  let r := CookieVault.save st.vault bag
  { st with vault := r.1, file := some r.2, evs := st.evs ++ [.saveCall bag] }

/-- Python substring containment (`needle in hay`). -/
def matchesAt : List Char → List Char → Bool
  | _, [] => true
  | [], _ :: _ => false
  | h :: hs, n :: ns => h = n && matchesAt hs ns

/-- Returns `true` when `needle` occurs as a contiguous run inside `hay`. -/
def hasSubList : List Char → List Char → Bool
  | [], ns => ns.isEmpty
  | c :: cs, ns => matchesAt (c :: cs) ns || hasSubList cs ns

/-- Embeds the Python `in` operator on strings. -/
def strContains (hay needle : String) : Bool :=
  hasSubList hay.data needle.data

/-- Embeds `__two_factor_auth` (`login.py`): the email phrase is checked
first; on a match the email code is prompted and `verify2_fa_email_code` is
called; otherwise the generic phrase selects the TOTP prompt and
`verify2_fa`; otherwise nothing happens and the same `auth` object is
returned. -/
def twoFactorAuthStep (env : Env) (st : St) (reason : String) : St :=
  if strContains reason "Email 2 Factor Authentication" then
    pushEv (pushEv st .promptEmailCode) (.verifyEmail env.stdinCode)
  else if strContains reason "2 Factor Authentication" then
    pushEv (pushEv st .promptTotpCode) (.verifyTotp env.stdinCode)
  else
    st

/-- Embeds `__manual_login` (`login.py`): prompt for any credential not
supplied, issue the identity fetch; on success extract a bag from the
response headers and save it when non-`None`; on `UnauthorizedException` run
the two-factor handler, re-issue the fetch, and on its success save the bag
extracted from the success headers, falling back to the rejection's headers,
calling `vault.save` even when both extractions returned `None`.  A rejection
of the re-issued fetch propagates as a fresh `UnauthorizedException`. -/
def manualLogin (env : Env) (st : St) (username password : Option String) :
    Except LErr Nat × St :=
  let st := match username with
    | none => pushEv st .promptUsername
    | some _ => st
  let st := match password with
    | none => pushEv st .promptPassword
    | some _ => st
  match doFetch env st with
  | (.success uid hdr, st) =>
    (match CookieVault.extract hdr with
     | .error e => (.error (.pyErr e), st)
     | .ok (some bag) => (.ok uid, doSave st (.bag bag))
     | .ok none => (.ok uid, st))
  | (.unauthorized reason rejHdr, st) =>
    let st := twoFactorAuthStep env st reason
    match doFetch env st with
    | (.success uid hdr2, st) =>
      (match CookieVault.extract hdr2 with
       | .error e => (.error (.pyErr e), st)
       | .ok (some bag) => (.ok uid, doSave st (.bag bag))
       | .ok none =>
         match CookieVault.extract rejHdr with
         | .error e => (.error (.pyErr e), st)
         | .ok (some bag2) => (.ok uid, doSave st (.bag bag2))
         | .ok none => (.ok uid, doSave st .null))
    | (.unauthorized r2 h2, st) => (.error (.unauthorized r2 h2), st)

/-- Embeds `__cookie_login` (`login.py`): build the `Cookie` header from the
vault (errors from `get` propagate), issue the identity fetch; on success
return the identity without touching the vault; on `UnauthorizedException`
fall back to `__manual_login(agent=agent, vault=vault)` — the caller's
`username`/`password` are not forwarded, so both are `None` there. -/
def cookieLogin (env : Env) (st : St) : Except LErr Nat × St :=
  match CookieVault.buildAuthHeader st.vault with
  | .error e => (.error (.pyErr e), st)
  | .ok _ =>
    match doFetch env st with
    | (.success uid _, st) => (.ok uid, st)
    | (.unauthorized _ _, st) => manualLogin env st none none

/-- Embeds `login` (`login.py`): construct a fresh vault, `load()` it, and
take the cookie path when it is active, the manual path otherwise.  No retry
envelope wraps the body. -/
def login (env : Env) (username password : Option String) : Except LErr Nat × St :=
  let vault : CookieVault.State :=
    CookieVault.load env.file { key := env.key, ciphertext := none }
  let st : St := { vault := vault, file := env.file, calls := 0, evs := [] }
  if CookieVault.is_active vault then
    cookieLogin env st
  else
    manualLogin env st username password

/-- Embeds `constant.LOGIN_RETRY_LIMIT` (`constant/constant.py`). -/
def LOGIN_RETRY_LIMIT : Nat := 3

/-- Embeds `constant.LOGIN_RETRY_WAIT` (`constant/constant.py`), in seconds. -/
def LOGIN_RETRY_WAIT : Nat := 5

/-- The bags passed to `vault.save`, in order, during a run. -/
def saveEvents (evs : List Ev) : List BagVal :=
  evs.filterMap fun e =>
    match e with
    | .saveCall b => some b
    | _ => none

/-- The sleep events of a run (the code never emits one: no retry decorator
or sleep call exists in `login.py`). -/
def sleepEvents (evs : List Ev) : List Ev :=
  evs.filter fun e =>
    match e with
    | .sleep _ => true
    | _ => false

/-- The string value of a dict entry as `CookieVault.get` reports it: the
value when present and string-typed, `None` otherwise (mirrors the
`isinstance(value, str)` check). -/
def strValOf (es : Bag) (k : String) : Option String :=
  match es.lookup k with
  | some (some s) => some s
  | some none => none
  | none => none

/-- The `Cookie` header value `set_configuration` composes for a decrypted
bag `es`. -/
def headerOf (es : Bag) : String :=
  let a := match strValOf es "auth" with
    | some x => "auth=" ++ x
    | none => ""
  match strValOf es "twoFactorAuth" with
  | some f => a ++ "; twoFactorAuth=" ++ f
  | none => a

/-- The value `__manual_login` passes to `vault.save` on the challenge path:
the bag extracted from the success headers when non-`None`, else the bag
extracted from the rejection headers, else Python `None`. -/
def bagOrNull (c1 c2 : Option Bag) : BagVal :=
  match c1 with
  | some b => .bag b
  | none =>
    match c2 with
    | some b => .bag b
    | none => .null

/-- The orchestrator state at the start of a run with no vault file. -/
def st0 : St :=
  { vault := { key := 0, ciphertext := none }, file := none, calls := 0, evs := [] }

/-- A vault-file token: the bag `{auth: "T", twoFactorAuth: None}` encrypted
under key `0`. -/
def tokT : Bytes :=
  fernetEncrypt 0 (dumps (.bag [("auth", some "T"), ("twoFactorAuth", none)]))

/-- Success headers carrying a session cookie. -/
def hdrXyz : Headers :=
  some [("Set-Cookie", .vstr "auth=xyz; Path=/")]

/-- A provider that rejects every identity fetch with the same
`Unauthorized` reason, no vault file on disk. -/
def envAlwaysReject : Env where
  fetch := fun _ => .unauthorized "Invalid Username/Email or Password" none
  stdinUser := "su"
  stdinPass := "sp"
  stdinCode := "sc"
  file := none
  key := 0

/-- An active vault whose cookie the provider rejects; the prompted manual
credentials then succeed (without a session cookie in the response). -/
def envCookieFallback : Env where
  fetch := fun i => if i = 0 then .unauthorized "x" none else .success 5 none
  stdinUser := "su"
  stdinPass := "sp"
  stdinCode := "sc"
  file := some tokT
  key := 0

/-- An active vault whose cookie the provider rejects; the manual retry
succeeds with a `Set-Cookie` response header. -/
def envManualSaves : Env where
  fetch := fun i => if i = 0 then .unauthorized "x" none else .success 5 hdrXyz
  stdinUser := "su"
  stdinPass := "sp"
  stdinCode := "sc"
  file := some tokT
  key := 0

/-- An active vault whose cookie the provider accepts on the first fetch. -/
def envCookieSuccess : Env where
  fetch := fun _ => .success 3 none
  stdinUser := "su"
  stdinPass := "sp"
  stdinCode := "sc"
  file := some tokT
  key := 0

/-- No vault file; the provider rejects with a non-challenge reason and then
accepts the second fetch. -/
def envMaintenance : Env where
  fetch := fun i => if i = 0 then .unauthorized "Maintenance mode" none else .success 7 none
  stdinUser := "su"
  stdinPass := "sp"
  stdinCode := "sc"
  file := none
  key := 0

/-- No vault file; the provider rejects with the generic second-factor reason
and accepts the fetch after the challenge, but neither response carries a
`Set-Cookie` header. -/
def envTwoFactorNoCookie : Env where
  fetch := fun i => if i = 0 then .unauthorized "2 Factor Authentication required" none else .success 9 none
  stdinUser := "su"
  stdinPass := "sp"
  stdinCode := "sc"
  file := none
  key := 0
theorem decStr_encStr (s : String) (r : Bytes) : decStr (encStr s ++ r) = some (s, r) := by
  have hlen : (s.data.map Char.toNat).length = s.data.length := List.length_map _ _
  have h1 : ((s.data.map Char.toNat) ++ r).take s.data.length = s.data.map Char.toNat := by
    rw [← hlen]; exact List.take_left _ _
  have h2 : ((s.data.map Char.toNat) ++ r).drop s.data.length = r := by
    rw [← hlen]; exact List.drop_left _ _
  simp only [encStr, List.cons_append, decStr]
  rw [if_pos (by rw [List.length_append, hlen]; exact Nat.le_add_right _ _)]
  rw [h1, h2, List.map_map]
  have hid : (Char.ofNat ∘ Char.toNat) = id := funext fun c => Char.ofNat_toNat c
  rw [hid, List.map_id]

theorem decOptStr_encOptStr (o : Option String) (r : Bytes) :
    decOptStr (encOptStr o ++ r) = some (o, r) := by
  cases o with
  | none => rfl
  | some s =>
    simp only [encOptStr, List.cons_append, decOptStr, decStr_encStr]

theorem decEntries_encEntries (es : Bag) (r : Bytes) :
    decEntries es.length (encEntries es ++ r) = some (es, r) := by
  induction es generalizing r with
  | nil => rfl
  | cons e es ih =>
    simp only [encEntries, List.length_cons, decEntries, List.append_assoc]
    rw [decStr_encStr]
    dsimp only
    rw [decOptStr_encOptStr]
    dsimp only
    rw [ih]

/-- Round trip of the serialization layer: `json.loads` inverts `json.dumps`. -/
theorem loads_dumps (v : BagVal) : loads (dumps v) = some v := by
  cases v with
  | null => rfl
  | bag es =>
    have h := decEntries_encEntries es []
    rw [List.append_nil] at h
    simp only [dumps, loads, h]


theorem fernetDecrypt_fernetEncrypt (key : Nat) (plain : Bytes) :
    fernetDecrypt key (fernetEncrypt key plain) = .ok plain := by
  simp [fernetDecrypt, fernetEncrypt]


theorem decryptBag_save (key : Nat) (ct : Option Bytes) (v : BagVal) :
    CookieVault.decryptBag ((CookieVault.save { key := key, ciphertext := ct } v).1) = .ok v := by
  simp only [CookieVault.save, fernetEncrypt, CookieVault.decryptBag]
  simp only [fernetDecrypt, if_pos]
  rw [loads_dumps]

theorem decryptBag_save_wrongKey (key k' : Nat) (ct : Option Bytes) (v : BagVal) (h : k' ≠ key) :
    CookieVault.decryptBag
      { key := k', ciphertext := ((CookieVault.save { key := key, ciphertext := ct } v).1).ciphertext } =
      .error .invalidToken := by
  simp only [CookieVault.save, fernetEncrypt, CookieVault.decryptBag]
  simp only [fernetDecrypt]
  rw [if_neg (fun hk => h hk.symm)]

theorem get_of_decrypt (st : CookieVault.State) (es : Bag) (k : String)
    (h : CookieVault.decryptBag st = .ok (.bag es)) :
    CookieVault.get st k = .ok (strValOf es k) := by
  simp only [CookieVault.get, h, strValOf]

theorem buildAuthHeader_of_decrypt (st : CookieVault.State) (es : Bag)
    (h : CookieVault.decryptBag st = .ok (.bag es)) :
    CookieVault.buildAuthHeader st = .ok (headerOf es) := by
  simp only [CookieVault.buildAuthHeader, get_of_decrypt st es _ h, headerOf]

theorem saveEvents_append (a b : List Ev) :
    saveEvents (a ++ b) = saveEvents a ++ saveEvents b := by
  simp only [saveEvents, List.filterMap_append]

theorem twoFactorAuthStep_spec (env : Env) (st : St) (reason : String) :
    ∃ extra, twoFactorAuthStep env st reason = { st with evs := st.evs ++ extra } ∧
      saveEvents extra = [] := by
  unfold twoFactorAuthStep
  split
  · exact ⟨[.promptEmailCode, .verifyEmail env.stdinCode], by simp [pushEv], rfl⟩
  split
  · exact ⟨[.promptTotpCode, .verifyTotp env.stdinCode], by simp [pushEv], rfl⟩
  · exact ⟨[], by simp, rfl⟩

theorem decryptBag_token (key : Nat) (v : BagVal) :
    CookieVault.decryptBag { key := key, ciphertext := some (fernetEncrypt key (dumps v)) } = .ok v := by
  simp only [fernetEncrypt, CookieVault.decryptBag]
  simp only [fernetDecrypt, if_pos]
  rw [loads_dumps]

theorem cookieLogin_success (env : Env) (st : St) (uid : Nat) (hdr : Headers) (hv : String)
    (hok : CookieVault.buildAuthHeader st.vault = .ok hv)
    (hfetch : env.fetch st.calls = .success uid hdr) :
    cookieLogin env st =
      (.ok uid, { st with calls := st.calls + 1, evs := st.evs ++ [.fetchCall st.calls] }) := by
  unfold cookieLogin
  rw [hok]
  simp only [doFetch]
  rw [hfetch]

theorem cookieLogin_unauthorized (env : Env) (st : St) (r : String) (h : Headers) (hv : String)
    (hok : CookieVault.buildAuthHeader st.vault = .ok hv)
    (hfetch : env.fetch st.calls = .unauthorized r h) :
    cookieLogin env st =
      manualLogin env { st with calls := st.calls + 1, evs := st.evs ++ [.fetchCall st.calls] }
        none none := by
  unfold cookieLogin
  rw [hok]
  simp only [doFetch]
  rw [hfetch]

theorem manualLogin_none_first_success (env : Env) (st : St) (uid : Nat) (hdr : Headers) (bag : Bag)
    (hfetch : env.fetch st.calls = .success uid hdr)
    (hx : CookieVault.extract hdr = .ok (some bag)) :
    manualLogin env st none none =
      (.ok uid,
       doSave { st with calls := st.calls + 1, evs := st.evs ++ [.promptUsername, .promptPassword, .fetchCall st.calls] } (.bag bag)) := by
  unfold manualLogin
  simp only [pushEv, doFetch]
  rw [hfetch]
  dsimp only
  rw [hx]
  simp [List.append_assoc]

theorem saveEvents_fetch (i : Nat) : saveEvents [Ev.fetchCall i] = [] := rfl

theorem saveEvents_save (b : BagVal) : saveEvents [Ev.saveCall b] = [b] := rfl

/-- C8 (amended): on a manual-path success after a second-factor round, the
value passed to `vault.save` is the bag extracted from the success response
headers when non-absent, else the bag extracted from the rejection's headers;
when both extractions are absent, `vault.save` is still invoked, with Python
`None`.  In every case `save` is called exactly once on this path. -/
theorem C8_save_fallback (env : Env) (st : St) (u p reason : String)
    (rejH : Headers) (uid : Nat) (hdr2 : Headers) (c1 c2 : Option Bag)
    (h0 : env.fetch st.calls = .unauthorized reason rejH)
    (h1 : env.fetch (st.calls + 1) = .success uid hdr2)
    (hx1 : CookieVault.extract hdr2 = .ok c1)
    (hx2 : CookieVault.extract rejH = .ok c2) :
    (manualLogin env st (some u) (some p)).1 = .ok uid ∧
    saveEvents (manualLogin env st (some u) (some p)).2.evs =
      saveEvents st.evs ++ [bagOrNull c1 c2] := by
  obtain ⟨extra, hT, hSE⟩ :=
    twoFactorAuthStep_spec env
      { st with calls := st.calls + 1, evs := st.evs ++ [.fetchCall st.calls] } reason
  unfold manualLogin
  simp only [doFetch]
  rw [h0]
  dsimp only
  rw [hT]
  dsimp only
  rw [h1]
  dsimp only
  rw [hx1]
  cases c1 with
  | some bag =>
    dsimp only [bagOrNull, doSave]
    constructor
    · rfl
    · simp only [saveEvents_append, saveEvents_fetch, saveEvents_save, hSE,
        List.append_nil, List.nil_append, List.append_assoc]
  | none =>
    rw [hx2]
    cases c2 with
    | some bag2 =>
      dsimp only [bagOrNull, doSave]
      constructor
      · rfl
      · simp only [saveEvents_append, saveEvents_fetch, saveEvents_save, hSE,
        List.append_nil, List.nil_append, List.append_assoc]
    | none =>
      dsimp only [bagOrNull, doSave]
      constructor
      · rfl
      · simp only [saveEvents_append, saveEvents_fetch, saveEvents_save, hSE,
        List.append_nil, List.nil_append, List.append_assoc]

theorem manualLogin_unrecognized_reject (env : Env) (st : St) (u p reason : String)
    (rejH : Headers) (r2 : String) (h2 : Headers)
    (hN1 : strContains reason "Email 2 Factor Authentication" = false)
    (hN2 : strContains reason "2 Factor Authentication" = false)
    (h0 : env.fetch st.calls = .unauthorized reason rejH)
    (h1 : env.fetch (st.calls + 1) = .unauthorized r2 h2) :
    manualLogin env st (some u) (some p) =
      (.error (.unauthorized r2 h2),
       { st with calls := st.calls + 1 + 1, evs := st.evs ++ [.fetchCall st.calls, .fetchCall (st.calls + 1)] }) := by
  unfold manualLogin
  simp only [doFetch]
  rw [h0]
  dsimp only
  unfold twoFactorAuthStep
  simp only [hN1, hN2, Bool.false_eq_true, if_false]
  rw [h1]
  simp [List.append_assoc]

theorem login_active (env : Env) (tok : Bytes) (u p : Option String)
    (hfile : env.file = some tok) :
    login env u p =
      cookieLogin env
        { vault := { key := env.key, ciphertext := some tok }, file := some tok,
          calls := 0, evs := [] } := by
  unfold login CookieVault.load CookieVault.is_active
  rw [hfile]
  rfl

/-- C5: `vault.save` is invoked exactly when a new bag is obtained on the
manual path.  Part one: when the cookie path succeeds (active vault whose
header builds, first fetch successful), `login` returns that outcome, no
`save` happens, and neither the vault file nor the in-memory ciphertext
changes.  Part two: when the active vault's cookie is rejected and the
subsequent manual fetch succeeds with headers from which a bag is extracted,
`login` returns the manual outcome and `save` is called exactly once, with
exactly that bag. -/
theorem C5_vault_save_frame :
    (∀ (env : Env) (es : Bag) (uid : Nat) (hdr : Headers) (u p : Option String),
       env.file = some (fernetEncrypt env.key (dumps (.bag es))) →
       env.fetch 0 = .success uid hdr →
       (login env u p).1 = .ok uid ∧
       saveEvents (login env u p).2.evs = [] ∧
       (login env u p).2.file = env.file ∧
       (login env u p).2.vault.ciphertext = env.file) ∧
    (∀ (env : Env) (es bag : Bag) (uid : Nat) (r : String) (rejH hdr2 : Headers)
       (u p : Option String),
       env.file = some (fernetEncrypt env.key (dumps (.bag es))) →
       env.fetch 0 = .unauthorized r rejH →
       env.fetch 1 = .success uid hdr2 →
       CookieVault.extract hdr2 = .ok (some bag) →
       (login env u p).1 = .ok uid ∧
       saveEvents (login env u p).2.evs = [BagVal.bag bag]) := by
  constructor
  · intro env es uid hdr u p hfile hfetch
    have hhdr : CookieVault.buildAuthHeader
        { key := env.key, ciphertext := some (fernetEncrypt env.key (dumps (.bag es))) } =
        .ok (headerOf es) :=
      buildAuthHeader_of_decrypt _ es (decryptBag_token env.key (.bag es))
    have hrun := cookieLogin_success env
      { vault := { key := env.key, ciphertext := some (fernetEncrypt env.key (dumps (.bag es))) },
        file := some (fernetEncrypt env.key (dumps (.bag es))), calls := 0, evs := [] }
      uid hdr (headerOf es) hhdr hfetch
    rw [login_active env _ u p hfile, hrun, hfile]
    exact ⟨rfl, rfl, rfl, rfl⟩
  · intro env es bag uid r rejH hdr2 u p hfile h0 h1 hx
    have hhdr : CookieVault.buildAuthHeader
        { key := env.key, ciphertext := some (fernetEncrypt env.key (dumps (.bag es))) } =
        .ok (headerOf es) :=
      buildAuthHeader_of_decrypt _ es (decryptBag_token env.key (.bag es))
    have hcl := cookieLogin_unauthorized env
      { vault := { key := env.key, ciphertext := some (fernetEncrypt env.key (dumps (.bag es))) },
        file := some (fernetEncrypt env.key (dumps (.bag es))), calls := 0, evs := [] }
      r rejH (headerOf es) hhdr h0
    have hml := manualLogin_none_first_success env
      { vault := { key := env.key, ciphertext := some (fernetEncrypt env.key (dumps (.bag es))) },
        file := some (fernetEncrypt env.key (dumps (.bag es))), calls := 0 + 1,
        evs := [] ++ [.fetchCall 0] }
      uid hdr2 bag h1 hx
    rw [login_active env _ u p hfile, hcl, hml]
    exact ⟨rfl, rfl⟩

/-- Witness for C5 at concrete runs: a pure cookie success saves nothing and
leaves the file alone; a cookie rejection followed by a manual success with a
`Set-Cookie` header saves exactly the extracted bag. -/
theorem C5_vault_save_frame_witness :
    ((login envCookieSuccess (some "u") (some "p")).1 = .ok 3 ∧
     saveEvents (login envCookieSuccess (some "u") (some "p")).2.evs = [] ∧
     (login envCookieSuccess (some "u") (some "p")).2.file = envCookieSuccess.file ∧
     (login envCookieSuccess (some "u") (some "p")).2.vault.ciphertext = envCookieSuccess.file) ∧
    ((login envManualSaves (some "u") (some "p")).1 = .ok 5 ∧
     saveEvents (login envManualSaves (some "u") (some "p")).2.evs =
       [BagVal.bag [("auth", some "xyz"), ("twoFactorAuth", none)]]) :=
  ⟨C5_vault_save_frame.1 envCookieSuccess [("auth", some "T"), ("twoFactorAuth", none)] 3 none
      (some "u") (some "p") (by decide) (by decide),
   C5_vault_save_frame.2 envManualSaves [("auth", some "T"), ("twoFactorAuth", none)]
      [("auth", some "xyz"), ("twoFactorAuth", none)] 5 "x" none hdrXyz
      (some "u") (some "p") (by decide) (by decide) (by decide) (by decide)⟩

/-- C1: with a provider that rejects every fetch with `Unauthorized`, `login`
performs exactly one top-level attempt — two provider fetches (the manual try
and its unconditional re-issue), no inter-attempt waits — and propagates the
rejection of the second fetch.  The constants `LOGIN_RETRY_LIMIT = 3` and
`LOGIN_RETRY_WAIT = 5` exist but no retry envelope uses them, contradicting
the claimed `LOGIN_RETRY_LIMIT` attempts separated by `LOGIN_RETRY_WAIT`. -/
theorem C1_no_retry_envelope :
    (login envAlwaysReject (some "u") (some "p")).1 =
      .error (.unauthorized "Invalid Username/Email or Password" none) ∧
    (login envAlwaysReject (some "u") (some "p")).2.evs = [.fetchCall 0, .fetchCall 1] ∧
    sleepEvents (login envAlwaysReject (some "u") (some "p")).2.evs = [] ∧
    LOGIN_RETRY_LIMIT = 3 ∧ LOGIN_RETRY_WAIT = 5 := by
  decide

/-- C7: with both credentials supplied programmatically but an active vault
whose cookie is rejected, the fallback `__manual_login(agent=agent,
vault=vault)` call drops `username`/`password`, so the run prompts for both
— contradicting the claim that no interactive prompt ever occurs when both
are supplied. -/
theorem C7_prompts_despite_credentials :
    (login envCookieFallback (some "progU") (some "progP")).2.evs =
      [.fetchCall 0, .promptUsername, .promptPassword, .fetchCall 1] ∧
    Ev.promptUsername ∈ (login envCookieFallback (some "progU") (some "progP")).2.evs ∧
    Ev.promptPassword ∈ (login envCookieFallback (some "progU") (some "progP")).2.evs := by
  decide

/-- C6 (counterexample): for the reason `"Maintenance mode"` no challenge is
performed (no prompt or verification event occurs), but the rejection does
not propagate: the code re-issues the identity fetch and, the second fetch
succeeding, `login` returns `ok` — refuting the claim that the rejection
propagates to the caller unchanged. -/
theorem C6_counterexample :
    (login envMaintenance (some "u") (some "p")).1 = .ok 7 ∧
    (login envMaintenance (some "u") (some "p")).2.evs =
      [.fetchCall 0, .fetchCall 1, .saveCall .null] := by
  decide

/-- C6 (amended): a reason containing the email phrase routes to the
email-code verification path; otherwise a reason containing the generic
phrase routes to the generic code path; otherwise no challenge is performed
and the identity fetch is re-issued once — when that re-issued fetch also
rejects, its (new) rejection is what propagates to the caller. -/
theorem C6_challenge_routing :
    (∀ (env : Env) (st : St) (reason : String),
       strContains reason "Email 2 Factor Authentication" = true →
       twoFactorAuthStep env st reason =
         pushEv (pushEv st .promptEmailCode) (.verifyEmail env.stdinCode)) ∧
    (∀ (env : Env) (st : St) (reason : String),
       strContains reason "Email 2 Factor Authentication" = false →
       strContains reason "2 Factor Authentication" = true →
       twoFactorAuthStep env st reason =
         pushEv (pushEv st .promptTotpCode) (.verifyTotp env.stdinCode)) ∧
    (∀ (env : Env) (st : St) (u p reason : String) (rejH : Headers) (r2 : String) (h2 : Headers),
       strContains reason "Email 2 Factor Authentication" = false →
       strContains reason "2 Factor Authentication" = false →
       env.fetch st.calls = .unauthorized reason rejH →
       env.fetch (st.calls + 1) = .unauthorized r2 h2 →
       manualLogin env st (some u) (some p) =
         (.error (.unauthorized r2 h2),
          { st with calls := st.calls + 1 + 1,
                    evs := st.evs ++ [.fetchCall st.calls, .fetchCall (st.calls + 1)] })) := by
  refine ⟨?_, ?_, ?_⟩
  · intro env st reason h
    simp [twoFactorAuthStep, h]
  · intro env st reason hn h
    simp [twoFactorAuthStep, hn, h]
  · intro env st u p reason rejH r2 h2 hN1 hN2 h0 h1
    exact manualLogin_unrecognized_reject env st u p reason rejH r2 h2 hN1 hN2 h0 h1

/-- Witness for C6 (amended) at concrete reasons: the email phrase routes to
the email path, the generic phrase to the generic path, and an unrecognized
reason leads to the re-issued fetch's rejection propagating. -/
theorem C6_challenge_routing_witness :
    twoFactorAuthStep envTwoFactorNoCookie st0 "Email 2 Factor Authentication required" =
      pushEv (pushEv st0 .promptEmailCode) (.verifyEmail envTwoFactorNoCookie.stdinCode) ∧
    twoFactorAuthStep envTwoFactorNoCookie st0 "2 Factor Authentication required" =
      pushEv (pushEv st0 .promptTotpCode) (.verifyTotp envTwoFactorNoCookie.stdinCode) ∧
    manualLogin envAlwaysReject st0 (some "u") (some "p") =
      (.error (.unauthorized "Invalid Username/Email or Password" none),
       { st0 with calls := st0.calls + 1 + 1,
                  evs := st0.evs ++ [.fetchCall st0.calls, .fetchCall (st0.calls + 1)] }) :=
  ⟨C6_challenge_routing.1 envTwoFactorNoCookie st0 "Email 2 Factor Authentication required"
      (by decide),
   C6_challenge_routing.2.1 envTwoFactorNoCookie st0 "2 Factor Authentication required"
      (by decide) (by decide),
   C6_challenge_routing.2.2 envAlwaysReject st0 "u" "p" "Invalid Username/Email or Password"
      none "Invalid Username/Email or Password" none (by decide) (by decide) (by decide) (by decide)⟩

/-- C8 (counterexample): on a run where the generic second-factor challenge
is resolved and the follow-up fetch succeeds, but neither the success
response nor the rejection carries a `Set-Cookie` header, `__manual_login`
still calls `vault.save(None)` — refuting the claim that `save` is never
invoked with an absent bag. -/
theorem C8_counterexample :
    (login envTwoFactorNoCookie (some "u") (some "p")).1 = .ok 9 ∧
    saveEvents (login envTwoFactorNoCookie (some "u") (some "p")).2.evs = [BagVal.null] := by
  decide

/-- Witness for C8 (amended) at a concrete run where both extractions are
absent: `save` is invoked once, with Python `None`. -/
theorem C8_save_fallback_witness :
    (manualLogin envTwoFactorNoCookie st0 (some "u") (some "p")).1 = .ok 9 ∧
    saveEvents (manualLogin envTwoFactorNoCookie st0 (some "u") (some "p")).2.evs =
      saveEvents st0.evs ++ [bagOrNull none none] :=
  C8_save_fallback envTwoFactorNoCookie st0 "u" "p" "2 Factor Authentication required" none 9
    none none none (by decide) (by decide) (by decide) (by decide)

/-- C2: after `save(B)` under a fixed vault key, `get(name)` returns B's
value for each string-valued name bound in B and absent for names not in B;
and decrypting the saved ciphertext under any different key raises the
decryption failure (`InvalidToken`) rather than returning data. -/
theorem C2_roundtrip (key k' : Nat) (ct : Option Bytes) (es : Bag) (name : String)
    (_hnd : (es.map Prod.fst).Nodup) :
    (∀ s, es.lookup name = some (some s) →
       CookieVault.get ((CookieVault.save { key := key, ciphertext := ct } (.bag es)).1) name =
         .ok (some s)) ∧
    (es.lookup name = none →
       CookieVault.get ((CookieVault.save { key := key, ciphertext := ct } (.bag es)).1) name =
         .ok none) ∧
    (k' ≠ key →
       CookieVault.decryptBag
         { key := k',
           ciphertext := ((CookieVault.save { key := key, ciphertext := ct } (.bag es)).1).ciphertext } =
         .error .invalidToken) := by
  have hdec := decryptBag_save key ct (.bag es)
  refine ⟨?_, ?_, ?_⟩
  · intro s hs
    rw [get_of_decrypt _ es name hdec]
    simp [strValOf, hs]
  · intro hs
    rw [get_of_decrypt _ es name hdec]
    simp [strValOf, hs]
  · intro hk
    exact decryptBag_save_wrongKey key k' ct (.bag es) hk

/-- Witness for C2 at a concrete bag and keys `0` (right) and `1` (wrong). -/
theorem C2_roundtrip_witness :
    CookieVault.get ((CookieVault.save { key := 0, ciphertext := none } (.bag [("auth", some "T")])).1) "auth" =
      .ok (some "T") ∧
    CookieVault.get ((CookieVault.save { key := 0, ciphertext := none } (.bag [("auth", some "T")])).1) "other" =
      .ok none ∧
    CookieVault.decryptBag
      { key := 1,
        ciphertext := ((CookieVault.save { key := 0, ciphertext := none } (.bag [("auth", some "T")])).1).ciphertext } =
      .error .invalidToken :=
  ⟨(C2_roundtrip 0 1 none [("auth", some "T")] "auth" (by decide)).1 "T" (by decide),
   (C2_roundtrip 0 1 none [("auth", some "T")] "other" (by decide)).2.1 (by decide),
   (C2_roundtrip 0 1 none [("auth", some "T")] "auth" (by decide)).2.2 (by decide)⟩

/-- C3 (counterexample): on a vault state holding the bag
`{twoFactorAuth: "F"}` without `auth`, the built header is
`"; twoFactorAuth=F"`, not the empty string — refuting the claim that the
header is empty whenever `auth` is absent. -/
theorem C3_counterexample :
    CookieVault.buildAuthHeader
      ((CookieVault.save { key := 0, ciphertext := none } (.bag [("twoFactorAuth", some "F")])).1) =
      .ok "; twoFactorAuth=F" ∧
    ("; twoFactorAuth=F" : String) ≠ "" := by
  decide

/-- C3 (amended): for a decryptable vault state the built header is
`auth=T` when the bag holds string `auth=T` and no string `twoFactorAuth`;
`auth=T; twoFactorAuth=F` when it holds both; the empty string when it holds
neither; and `; twoFactorAuth=F` when it holds only `twoFactorAuth=F`. -/
theorem C3_header_building (st : CookieVault.State) (es : Bag)
    (h : CookieVault.decryptBag st = .ok (.bag es)) :
    (∀ T, strValOf es "auth" = some T → strValOf es "twoFactorAuth" = none →
       CookieVault.buildAuthHeader st = .ok ("auth=" ++ T)) ∧
    (∀ T F, strValOf es "auth" = some T → strValOf es "twoFactorAuth" = some F →
       CookieVault.buildAuthHeader st = .ok ("auth=" ++ T ++ "; twoFactorAuth=" ++ F)) ∧
    (strValOf es "auth" = none → strValOf es "twoFactorAuth" = none →
       CookieVault.buildAuthHeader st = .ok "") ∧
    (∀ F, strValOf es "auth" = none → strValOf es "twoFactorAuth" = some F →
       CookieVault.buildAuthHeader st = .ok ("; twoFactorAuth=" ++ F)) := by
  have hb := buildAuthHeader_of_decrypt st es h
  refine ⟨?_, ?_, ?_, ?_⟩
  · intro T hA hF
    rw [hb]
    simp [headerOf, hA, hF]
  · intro T F hA hF
    rw [hb]
    simp [headerOf, hA, hF]
  · intro hA hF
    rw [hb]
    simp [headerOf, hA, hF]
  · intro F hA hF
    rw [hb]
    simp [headerOf, hA, hF]

/-- Witness for C3 (amended) at the four concrete bag shapes. -/
theorem C3_header_building_witness :
    CookieVault.buildAuthHeader
      ((CookieVault.save { key := 0, ciphertext := none } (.bag [("auth", some "T")])).1) =
      .ok ("auth=" ++ "T") ∧
    CookieVault.buildAuthHeader
      ((CookieVault.save { key := 0, ciphertext := none }
        (.bag [("auth", some "T"), ("twoFactorAuth", some "F")])).1) =
      .ok ("auth=" ++ "T" ++ "; twoFactorAuth=" ++ "F") ∧
    CookieVault.buildAuthHeader
      ((CookieVault.save { key := 0, ciphertext := none } (.bag [])).1) = .ok "" ∧
    CookieVault.buildAuthHeader
      ((CookieVault.save { key := 0, ciphertext := none } (.bag [("twoFactorAuth", some "G")])).1) =
      .ok ("; twoFactorAuth=" ++ "G") :=
  ⟨(C3_header_building _ _ (decryptBag_save 0 none (.bag [("auth", some "T")]))).1 "T"
      (by decide) (by decide),
   (C3_header_building _ _
      (decryptBag_save 0 none (.bag [("auth", some "T"), ("twoFactorAuth", some "F")]))).2.1 "T" "F"
      (by decide) (by decide),
   (C3_header_building _ _ (decryptBag_save 0 none (.bag []))).2.2.1 (by decide) (by decide),
   (C3_header_building _ _ (decryptBag_save 0 none (.bag [("twoFactorAuth", some "G")]))).2.2.2 "G"
      (by decide) (by decide)⟩

/-- C9 (counterexample): a present-but-empty ciphertext (as a zero-byte vault
file produces) is "present but fails to decrypt" — `fernetDecrypt` rejects it
— yet `get` raises the vault-empty error, not the decryption failure: the
failure is downgraded to the vault-empty case, refuting the claim's
"never downgraded" clause at this state. -/
theorem C9_counterexample :
    CookieVault.is_active { key := 0, ciphertext := some [] } = true ∧
    fernetDecrypt 0 [] = .error .invalidToken ∧
    CookieVault.get { key := 0, ciphertext := some [] } "auth" = .error .vaultEmpty := by
  decide

/-- C9 (amended): `load` never raises for a missing file (it sets the
ciphertext to absent) and is idempotent; `get` raises the vault-empty error
when the ciphertext is absent — and also when it is present but empty; when
the ciphertext is present and non-empty, a decryption failure propagates as
`InvalidToken` and a deserialization failure as the JSON decode error, never
as the vault-empty error. -/
theorem C9_error_handling :
    (∀ st : CookieVault.State, CookieVault.load none st = { st with ciphertext := none }) ∧
    (∀ (f : Option Bytes) (st : CookieVault.State),
       CookieVault.load f (CookieVault.load f st) = CookieVault.load f st) ∧
    (∀ (st : CookieVault.State) (name : String), st.ciphertext = none →
       CookieVault.get st name = .error .vaultEmpty) ∧
    (∀ (st : CookieVault.State) (name : String), st.ciphertext = some [] →
       CookieVault.get st name = .error .vaultEmpty) ∧
    (∀ (st : CookieVault.State) (bs : Bytes) (name : String),
       st.ciphertext = some bs → bs ≠ [] →
       fernetDecrypt st.key bs = .error .invalidToken →
       CookieVault.get st name = .error .invalidToken) ∧
    (∀ (st : CookieVault.State) (bs plain : Bytes) (name : String),
       st.ciphertext = some bs → bs ≠ [] →
       fernetDecrypt st.key bs = .ok plain → loads plain = none →
       CookieVault.get st name = .error .jsonDecodeError) := by
  refine ⟨?_, ?_, ?_, ?_, ?_, ?_⟩
  · intro st
    rfl
  · intro f st
    rfl
  · intro st name h
    simp [CookieVault.get, CookieVault.decryptBag, h]
  · intro st name h
    simp [CookieVault.get, CookieVault.decryptBag, h]
  · intro st bs name h hne hdec
    cases bs with
    | nil => exact absurd rfl hne
    | cons b t =>
      simp [CookieVault.get, CookieVault.decryptBag, h, hdec]
  · intro st bs plain name h hne hdec hloads
    cases bs with
    | nil => exact absurd rfl hne
    | cons b t =>
      simp [CookieVault.get, CookieVault.decryptBag, h, hdec, hloads]

/-- Witness for C9 (amended) at concrete states: absent ciphertext gives the
vault-empty error; a wrong-key ciphertext gives `InvalidToken`; a ciphertext
whose plaintext fails to deserialize gives the JSON decode error. -/
theorem C9_error_handling_witness :
    CookieVault.get { key := 0, ciphertext := none } "auth" = .error .vaultEmpty ∧
    CookieVault.get { key := 1, ciphertext := some [0, 9] } "auth" = .error .invalidToken ∧
    CookieVault.get { key := 0, ciphertext := some [0, 9] } "auth" = .error .jsonDecodeError :=
  ⟨C9_error_handling.2.2.1 { key := 0, ciphertext := none } "auth" rfl,
   C9_error_handling.2.2.2.2.1 { key := 1, ciphertext := some [0, 9] } [0, 9] "auth" rfl
     (by decide) (by decide),
   C9_error_handling.2.2.2.2.2 { key := 0, ciphertext := some [0, 9] } [0, 9] [9] "auth" rfl
     (by decide) (by decide) (by decide)⟩

/-- C10: after loading a vault file that exists but is zero bytes, the vault
reports `is_active` as true (the ciphertext is the non-`None` empty byte
string), yet `get` raises the vault-empty error — decryption is not even
attempted, so `is_active` being true does not guarantee a decryption
attempt. -/
theorem C10_zero_byte_file (st : CookieVault.State) (name : String) :
    CookieVault.is_active (CookieVault.load (some []) st) = true ∧
    CookieVault.get (CookieVault.load (some []) st) name = .error .vaultEmpty :=
  ⟨rfl, rfl⟩

/-- C4: the claimed multi-line `Set-Cookie` input makes `extract` raise
`AttributeError` instead of returning the merged bag: the raw list is passed
to the `SimpleCookie` constructor (which needs a string or a mapping) before
the list-merging loop can run.  Each of the two lines, parsed on its own,
does carry the claimed cookie — the merge loop below the crashing line was
clearly meant to handle this input. -/
theorem C4_extract_list_headers :
    CookieVault.extract
      (some [("Set-Cookie", .vlist ["auth=xyz; Path=/", "twoFactorAuth=123; Path=/"])]) =
      .error .attributeError ∧
    parseCookies "auth=xyz; Path=/" = [("auth", "xyz")] ∧
    parseCookies "twoFactorAuth=123; Path=/" = [("twoFactorAuth", "123")] := by
  decide
